import Mathlib

/-!
Verification development for the priority-lead pipeline in `streamlit_app.py`.

The program loads a spreadsheet of contact records, filters the rows down to
"priority leads" (keyword match on the free-text `Registro` field, or last
contact at least two business days ago), and produces one report section per
lead, substituting a fixed fallback section when the per-lead generation call
fails.

Shallow embedding conventions:
* a pandas timestamp is a calendar day count (days since 0000-03-01, proleptic
  Gregorian, via the standard civil-calendar conversion) plus a time-of-day
  component, ordered lexicographically;
* a missing (NaN) cell is `Option.none`; `pandas.to_datetime(errors='coerce')`
  followed by `dropna` is represented by taking the already-coerced
  `Option Timestamp` value of the cell and dropping `none` rows;
* `Series.astype(str)` turns a missing value into the literal string "nan"
  (Python's `str(float('nan'))`), and `Series.fillna` replaces only missing
  values, so their composition is embedded by `astypeStr` and `fillnaStr`;
* boolean-mask selection `df[mask]` is embedded by `boolIndex`;
* the regex `str.contains(kw1|kw2|..., case=False)` test is embedded as
  "some keyword of the fixed list is a substring of the lowercased text",
  every keyword being a literal with no regex metacharacters;
* Python's `str.split()` (split on whitespace runs, dropping empties) is
  `pySplit`, and `lst[0]` on an empty list is an `IndexError`, embedded with
  `Except`.
-/

namespace Mpn

/-! ## Timestamps and business-day arithmetic -/

/-- Days since 0000-03-01 (proleptic Gregorian) for year `y ≥ 1`, month
`1 ≤ m ≤ 12`, day `d ≥ 1` — the standard civil-from-date conversion. -/
def daysFromCivil (y m d : Nat) : Nat :=
  let y' := if m ≤ 2 then y - 1 else y
  let era := y' / 400
  let yoe := y' % 400
  let mp := (m + 9) % 12
  let doy := (153 * mp + 2) / 5 + d - 1
  let doe := yoe * 365 + yoe / 4 - yoe / 100 + doy
  era * 146097 + doe

/-- Inverse of `daysFromCivil`: the (year, month, day) of a day count. -/
def civilFromDays (z : Nat) : Nat × Nat × Nat :=
  let era := z / 146097
  let doe := z % 146097
  let yoe := (doe - doe / 1460 + doe / 36524 - doe / 146096) / 365
  let y := yoe + era * 400
  let doy := doe - (365 * yoe + yoe / 4 - yoe / 100)
  let mp := (5 * doy + 2) / 153
  let d := doy - (153 * mp + 2) / 5 + 1
  let m := if mp < 10 then mp + 3 else mp - 9
  (if m ≤ 2 then y + 1 else y, m, d)

/-- A pandas `Timestamp`: a calendar day plus a time-of-day ordinal
(ordered lexicographically).  Day 0 = 0000-03-01, a Wednesday. -/
structure Timestamp where
  day : Nat
  tod : Nat
deriving DecidableEq, Repr

/-- The timestamp at midnight of a calendar date. -/
def mkDate (y m d : Nat) : Timestamp := ⟨daysFromCivil y m d, 0⟩

/-- `a ≤ b` on timestamps (lexicographic on day, then time of day). -/
def Timestamp.le (a b : Timestamp) : Bool :=
  a.day < b.day || (a.day == b.day && a.tod ≤ b.tod)

/-- Weekday of a day count, 0 = Monday … 5 = Saturday, 6 = Sunday
(day 0 of the epoch is a Wednesday, hence the offset 2). -/
def weekday (d : Nat) : Nat := (d + 2) % 7

/-- Saturday or Sunday. -/
def isWeekend (d : Nat) : Bool := 5 ≤ weekday d

/-- One `BusinessDay` step backwards: move back one day, skipping over the
(at most two consecutive) weekend days. -/
def prevBDay (d : Nat) : Nat :=
  if isWeekend (d - 1) then
    if isWeekend (d - 2) then d - 3 else d - 2
  else d - 1

/-- `n` business-day steps backwards on a day count. -/
def businessDaySub (d : Nat) : Nat → Nat
  | 0 => d
  | n + 1 => businessDaySub (prevBDay d) n

/-- `pd.Timestamp.now() - BusinessDay(2)` (line 95): two business days before
`now`, keeping the time of day (pandas `BusinessDay` preserves it). -/
def two_bd_ago (now : Timestamp) : Timestamp :=
  { now with day := businessDaySub now.day 2 }

/-! ## Rows and the Record Loader (lines 76–90) -/

/-- One row of the table.  `Option.none` in a field is a missing (NaN/NaT)
cell; `data` holds the result of the best-effort `to_datetime` coercion of the
'Data do Atendimento' cell (`none` = NaT, i.e. unparseable). -/
structure Row where
  data : Option Timestamp
  nome : String
  atendente : Option String
  registro : Option String
deriving DecidableEq, Repr

/-- `Series.astype(str)` on one cell: a present value stays itself, a missing
value becomes the literal string "nan" (`str(float('nan'))`); the result is
never missing. -/
def astypeStr : Option String → Option String
  | some s => some s
  | none => some "nan"

/-- `Series.fillna(default)` on one cell: replaces only a missing value. -/
def fillnaStr (default : String) : Option String → Option String
  | some s => some s
  | none => some default

/-- Line 80: `df["Registro"].astype(str).fillna("")`. -/
def normRegistro (v : Option String) : Option String := fillnaStr "" (astypeStr v)

/-- Line 81: `df["Atendente"].astype(str).fillna("Não Informado")`. -/
def normAtendente (v : Option String) : Option String :=
  fillnaStr "Não Informado" (astypeStr v)

/-- Line 86: the four required columns, in the order the code lists them. -/
def required_cols : List String :=
  ["Data do Atendimento", "Nome do Atendido", "Atendente", "Registro"]

/-- How a load can fail: the generic "Falha ao ler/processar o Excel" path
(line 83) or the "Colunas faltantes no arquivo" path (line 89). -/
inductive LoadError
  | parseError (detail : String)
  | missingColumns (cols : List String)
deriving DecidableEq, Repr

/-- A parsed spreadsheet: the column names present, and the rows. -/
structure Sheet where
  cols : List String
  rows : List Row
deriving Repr

/-- Lines 76–90.  The `try` block (77–84) accesses the columns
'Data do Atendimento' (line 78), 'Registro' (line 80) and 'Atendente'
(line 81); a `KeyError` on a missing column is caught by the generic handler
at line 82.  Rows whose timestamp did not coerce are dropped (line 79), then
`Registro` and `Atendente` cells are normalised (lines 80–81).  Only then are
the required columns checked (lines 86–90). -/
def load (s : Sheet) : Except LoadError (List Row) :=
  if "Data do Atendimento" ∈ s.cols then
    if "Registro" ∈ s.cols then
      if "Atendente" ∈ s.cols then
        let kept := s.rows.filter (fun r => r.data.isSome)
        let normed := kept.map (fun r =>
          { r with registro := normRegistro r.registro,
                   atendente := normAtendente r.atendente })
        let missing := required_cols.filter (fun c => decide (c ∉ s.cols))
        if missing.isEmpty then Except.ok normed
        else Except.error (LoadError.missingColumns missing)
      else Except.error (LoadError.parseError "KeyError: Atendente")
    else Except.error (LoadError.parseError "KeyError: Registro")
  else Except.error (LoadError.parseError "KeyError: Data do Atendimento")

/-! ## Priority Filter (lines 93–97) -/

/-- The alternatives of the keyword regex at line 93, each a literal with no
regex metacharacters, so the regex matches iff one of them is a substring. -/
def keywords : List String :=
  ["repique", "novo repique", "objeção", "objeções", "urgente", "fechar",
   "matricula", "interessado", "proposta"]

/-- Simple lowercase folding on the alphabet the program compares
(`case=False` at line 94): ASCII A–Z and the Latin-1 uppercase letters
À–Þ (U+00C0–U+00DE except ×) map down by 32, as in Python's casefolding. -/
def pyLowerChar (c : Char) : Char :=
  if 65 ≤ c.toNat && c.toNat ≤ 90 then Char.ofNat (c.toNat + 32)
  else if 0xC0 ≤ c.toNat && c.toNat ≤ 0xDE && c.toNat ≠ 0xD7 then
    Char.ofNat (c.toNat + 32)
  else c

/-- Lowercase a whole string. -/
def pyLower (s : String) : String := ⟨s.data.map pyLowerChar⟩

/-- Does `needle` occur at the head of `hay`? -/
def matchesAt : List Char → List Char → Bool
  | [], _ => true
  | _ :: _, [] => false
  | a :: as, b :: bs => a == b && matchesAt as bs

/-- Does `needle` occur as a contiguous substring of `hay`? -/
def containsSub (needle : List Char) : List Char → Bool
  | [] => matchesAt needle []
  | b :: bs => matchesAt needle (b :: bs) || containsSub needle bs

/-- Line 94 on one cell: `str.contains(keywords, case=False, na=False)` —
`true` iff some keyword is a substring of the lowercased text; a missing cell
gives `false` (`na=False`). -/
def kwTest : Option String → Bool
  | none => false
  | some s => keywords.any (fun k => containsSub k.data (pyLower s).data)

/-- Line 96 on one cell: `Data do Atendimento <= two_bd_ago`; a NaT compares
`false` in pandas. -/
def dateTest (now : Timestamp) : Option Timestamp → Bool
  | none => false
  | some t => Timestamp.le t (two_bd_ago now)

/-- Line 94: the `mask_kw` boolean series. -/
def mask_kw (df : List Row) : List Bool := df.map (fun r => kwTest r.registro)

/-- Line 96: the `mask_date` boolean series. -/
def mask_date (df : List Row) (now : Timestamp) : List Bool :=
  df.map (fun r => dateTest now r.data)

/-- Elementwise `|` of two boolean series (line 97). -/
def orMasks : List Bool → List Bool → List Bool := List.zipWith (· || ·)

/-- Pandas boolean indexing `df[mask]`: keep the rows whose mask bit is set,
in order. -/
def boolIndex : List Row → List Bool → List Row
  | [], _ => []
  | _ :: _, [] => []
  | r :: rs, b :: bs => if b then r :: boolIndex rs bs else boolIndex rs bs

/-- Line 97: `df[mask_kw | mask_date].reset_index(drop=True)` — the priority
table (`reset_index` only renumbers, the row sequence is unchanged). -/
def df_priority (df : List Row) (now : Timestamp) : List Row :=
  boolIndex df (orMasks (mask_kw df) (mask_date df now))

/-- The row-level selection predicate the masks compute. -/
def priorityPred (now : Timestamp) (r : Row) : Bool :=
  kwTest r.registro || dateTest now r.data

/-! ## Report Assembler: `gerar_relatorio` (lines 158–208) -/

/-- Tokenizer loop for `pySplit`: walk the characters, accumulating the
current (reversed) non-whitespace run, emitting a token at each whitespace
boundary. -/
def pySplitAux : List Char → List Char → List String
  | [], acc => if acc.isEmpty then [] else [⟨acc.reverse⟩]
  | c :: cs, acc =>
    if c.isWhitespace then
      if acc.isEmpty then pySplitAux cs [] else ⟨acc.reverse⟩ :: pySplitAux cs []
    else pySplitAux cs (c :: acc)

/-- Python's `str.split()` with no argument: the maximal runs of
non-whitespace characters, in order (whitespace-only input gives `[]`). -/
def pySplit (s : String) : List String := pySplitAux s.data []

/-- The uncaught exception the assembler can raise. -/
inductive PyError
  | indexError
deriving DecidableEq, Repr

/-- Line 166: `str(row["Atendente"]).split()[0] if pd.notna(...) else "N/A"`.
A missing value yields "N/A"; a present string is split on whitespace and
indexed at 0, which raises `IndexError` when no token exists (empty or
all-whitespace string).  This runs before the `try` at line 178, so the
error is not caught per lead. -/
def extractAtendente : Option String → Except PyError String
  | none => Except.ok "N/A"
  | some s =>
    match pySplit s with
    | [] => Except.error PyError.indexError
    | t :: _ => Except.ok t

/-- Zero-pad a number to two digits. -/
def pad2 (n : Nat) : String := if n < 10 then "0" ++ toString n else toString n

/-- Zero-pad a number to four digits. -/
def pad4 (n : Nat) : String :=
  if n < 10 then "000" ++ toString n
  else if n < 100 then "00" ++ toString n
  else if n < 1000 then "0" ++ toString n
  else toString n

/-- `Timestamp.strftime('%Y-%m-%d')`. -/
def strftimeYmd (t : Timestamp) : String :=
  match civilFromDays t.day with
  | (y, m, d) => pad4 y ++ "-" ++ pad2 m ++ "-" ++ pad2 d

/-- `row['Data do Atendimento'].strftime('%Y-%m-%d') if pd.notna(...) else
'N/A'` (lines 174 and 199). -/
def fmtData : Option Timestamp → String
  | none => "N/A"
  | some t => strftimeYmd t

/-- `str(row["Registro"]) if pd.notna(...) else ""` (line 167). -/
def registroStr : Option String → String
  | none => ""
  | some s => s

/-- Lines 196–203: the fixed fallback section appended when the per-lead API
call fails, built from the row and the already-extracted agent first name. -/
def fallbackSection (r : Row) (atendente : String) : String :=
  "---" ++
  "\n**Lead Prioritário:**\nNome: " ++ r.nome ++ "\n" ++
  "Atendente: " ++ atendente ++ "\nData: " ++ fmtData r.data ++ "\n" ++
  "Motivo da Prioridade: Erro ao processar\n" ++
  "Sugestão de Abordagem (WhatsApp): Erro na geração\n" ++
  "---"

/-- The generation collaborator: one call per lead, in call order.  The first
argument is the position of the call in the batch (the collaborator is an
external, possibly stateful service, so the outcome may depend on which call
it is); `none` models a raised exception, caught by lines 192–203. -/
def Generator := Nat → Row → Option String

/-- The loop body of lines 163–203 from position `i` on: for each row,
extract the agent first name (line 166 — an `IndexError` here propagates and
aborts the whole batch), then call the collaborator inside `try` and append
either its text verbatim or the fallback section. -/
def gerarAux (gen : Generator) : Nat → List Row → Except PyError (List String)
  | _, [] => Except.ok []
  | i, r :: rs =>
    match extractAtendente r.atendente with
    | Except.error e => Except.error e
    | Except.ok atendente =>
      let sec :=
        match gen i r with
        | some text => text
        | none => fallbackSection r atendente
      match gerarAux gen (i + 1) rs with
      | Except.ok rest => Except.ok (sec :: rest)
      | Except.error e => Except.error e

/-- `gerar_relatorio` (lines 158–208) as the list of sections it accumulates
in `relatorio_completo`, or the uncaught exception that aborts it. -/
def gerar_relatorio (gen : Generator) (leads : List Row) :
    Except PyError (List String) :=
  gerarAux gen 0 leads

/-- Line 208: the returned report is the concatenation of the sections. -/
def gerar_relatorio_joined (gen : Generator) (leads : List Row) :
    Except PyError String :=
  (gerar_relatorio gen leads).map String.join

/-! ## Credential resolution (lines 27–44) -/

/-- What startup does before the pipeline may run. -/
inductive StartupOutcome
  | halted
  | ran (key : String)
deriving DecidableEq, Repr

/-- Lines 27–44: try `st.secrets["openai"]["api_key"]`; on `KeyError` fall
back to `os.environ.get("OPENAI_API_KEY")`; if that is also absent,
`st.stop()` halts the script before anything downstream runs. -/
def resolveCredential (secrets env : Option String) : StartupOutcome :=
  match secrets with
  | some k => StartupOutcome.ran k
  | none =>
    match env with
    | some k => StartupOutcome.ran k
    | none => StartupOutcome.halted

/-! ## Specification-level predicates and concrete fixtures -/

/-- The keyword rule as the spec words it: the notes cell is present and some
keyword of the fixed set occurs as a contiguous substring of the lowercased
text (case-insensitive raw substring presence). -/
def KwHit (notes : Option String) : Prop :=
  ∃ s, notes = some s ∧ ∃ k ∈ keywords, k.data <:+: (pyLower s).data

/-- The staleness rule as the spec words it: the contact timestamp is present
and is at most `now` minus two business days. -/
def StaleHit (now : Timestamp) (dataCell : Option Timestamp) : Prop :=
  ∃ t, dataCell = some t ∧ Timestamp.le t (two_bd_ago now) = true

/-- The agent first-name token the assembler ends up with when extraction
succeeds (and an unused placeholder when it would raise). -/
def atendenteOrNA (v : Option String) : String :=
  match extractAtendente v with
  | Except.ok a => a
  | Except.error _ => ""

/-- A well-formed loaded row used by several witnesses. -/
def wRowGood : Row :=
  ⟨some (mkDate 2025 1 3), "Ana Souza", some "Bruno Lima", some "interessado em proposta"⟩

/-- A second well-formed row (keyword-free notes, stale date). -/
def wRowGood2 : Row :=
  ⟨some (mkDate 2024 12 20), "Caio Melo", some "Duda Reis", some "sem novidades"⟩

/-- A raw row whose timestamp cell did not parse (NaT). -/
def wRowBadDate : Row := ⟨none, "Edu Pires", none, none⟩

/-- A sheet with all four required columns and one unparseable-date row. -/
def wSheet : Sheet := ⟨required_cols, [wRowGood, wRowBadDate]⟩

/-- What loading `wSheet` retains. -/
def wLoaded : List Row := [wRowGood]

/-- A priority lead whose `Atendente` cell is a whitespace-only string — a
value the loader retains, since it is not missing. -/
def wRowBlankAtendente : Row :=
  ⟨some (mkDate 2025 1 3), "Gil Nunes", some " ", some "urgente"⟩

/-- A collaborator that fails (raises) on every call. -/
def genFail0 : Generator := fun _ _ => none

/-- A collaborator that fails exactly on call 0 and returns a fixed text on
every other call. -/
def genFailAt0 : Generator := fun i _ => if i = 0 then none else some "SECTION"

/-- A collaborator that succeeds on every call with a fixed text. -/
def genOkConst : Generator := fun _ _ => some "SECTION OK"

/-- Staleness-rule fixture: contact on Wednesday 2025-01-01, neutral notes. -/
def rJan1 : Row := ⟨some (mkDate 2025 1 1), "Lia Prado", some "Ana", some "sem novidades"⟩

/-- Staleness-rule fixture: contact on Friday 2025-01-03, neutral notes. -/
def rJan3 : Row := ⟨some (mkDate 2025 1 3), "Tom Reis", some "Ana", some "sem novidades"⟩

deriving instance DecidableEq for Except

/-! ## Helper lemmas -/

/-- Boolean-mask selection with the elementwise disjunction of the two masks
is the stable filter by the row-level predicate. -/
theorem df_priority_eq_filter (now : Timestamp) : ∀ df : List Row,
    df_priority df now = df.filter (priorityPred now)
  | [] => rfl
  | r :: rs => by
    have ih := df_priority_eq_filter now rs
    show (if priorityPred now r then r :: df_priority rs now else df_priority rs now)
        = List.filter (priorityPred now) (r :: rs)
    rw [List.filter_cons, ih]

/-- `matchesAt` decides list-prefix. -/
theorem matchesAt_iff : ∀ n h : List Char, matchesAt n h = true ↔ n <+: h
  | [], h => by simp [matchesAt]
  | a :: as, [] => by simp [matchesAt]
  | a :: as, b :: bs => by
    simp [matchesAt, matchesAt_iff as bs, List.cons_prefix_cons]

/-- `containsSub` decides list-infix. -/
theorem containsSub_iff (n : List Char) : ∀ h : List Char,
    containsSub n h = true ↔ n <:+: h
  | [] => by
    rw [containsSub, matchesAt_iff]
    simp
  | b :: bs => by
    rw [containsSub]
    simp [matchesAt_iff, containsSub_iff n bs, List.infix_cons_iff]

/-- The keyword mask bit is set exactly when the spec-level keyword rule
holds. -/
theorem kwTest_iff (v : Option String) : kwTest v = true ↔ KwHit v := by
  cases v with
  | none => simp [kwTest, KwHit]
  | some s =>
    simp [kwTest, KwHit, List.any_eq_true, containsSub_iff]

/-- The date mask bit is set exactly when the spec-level staleness rule
holds. -/
theorem dateTest_iff (now : Timestamp) (v : Option Timestamp) :
    dateTest now v = true ↔ StaleHit now v := by
  cases v with
  | none => simp [dateTest, StaleHit]
  | some t => simp [dateTest, StaleHit]

/-- When every row's agent extraction succeeds, the assembler loop starting
at position `i0` succeeds and yields, per row, either the collaborator's text
or the fallback section. -/
theorem gerarAux_ok (gen : Generator) : ∀ (leads : List Row) (i0 : Nat),
    (∀ r ∈ leads, (extractAtendente r.atendente).isOk = true) →
    gerarAux gen i0 leads = Except.ok ((leads.enumFrom i0).map (fun p =>
      match gen p.1 p.2 with
      | some text => text
      | none => fallbackSection p.2 (atendenteOrNA p.2.atendente))) := by
  intro leads
  induction leads with
  | nil => intro i0 _; rfl
  | cons r rs ih =>
    intro i0 hok
    have h1 : (extractAtendente r.atendente).isOk = true :=
      hok r (List.mem_cons_self r rs)
    obtain ⟨a, ha⟩ : ∃ a, extractAtendente r.atendente = Except.ok a := by
      cases hx : extractAtendente r.atendente with
      | ok a => exact ⟨a, rfl⟩
      | error e => rw [hx] at h1; simp [Except.isOk, Except.toBool] at h1
    have h2 := ih (i0 + 1) (fun x hx => hok x (List.mem_cons_of_mem r hx))
    simp [gerarAux, ha, h2, List.enumFrom, atendenteOrNA]

/-- If every row before some row extracts an agent token but that row's
`Atendente` cell is a whitespace-only string, the loop aborts with the
uncaught `IndexError`, whatever the collaborator does. -/
theorem gerarAux_error_append (gen : Generator) (bad : Row) (s : String)
    (hs : bad.atendente = some s) (hsplit : pySplit s = []) :
    ∀ (pre : List Row) (i0 : Nat) (post : List Row),
    (∀ r ∈ pre, (extractAtendente r.atendente).isOk = true) →
    gerarAux gen i0 (pre ++ bad :: post) = Except.error PyError.indexError := by
  intro pre
  induction pre with
  | nil =>
    intro i0 post _
    simp [gerarAux, extractAtendente, hs, hsplit]
  | cons r rs ih =>
    intro i0 post hok
    have h1 : (extractAtendente r.atendente).isOk = true :=
      hok r (List.mem_cons_self r rs)
    obtain ⟨a, ha⟩ : ∃ a, extractAtendente r.atendente = Except.ok a := by
      cases hx : extractAtendente r.atendente with
      | ok a => exact ⟨a, rfl⟩
      | error e => rw [hx] at h1; simp [Except.isOk, Except.toBool] at h1
    have h2 := ih (i0 + 1) post (fun x hx => hok x (List.mem_cons_of_mem r hx))
    simp [gerarAux, ha, h2]

/-! ## Claims -/

/-- C1: a loaded record is selected by the Priority Filter iff its notes
contain (case-insensitive substring match) one of the fixed keywords or its
contact timestamp is at most `now` minus two business days; a record matching
both rules appears exactly once (its multiplicity in the output equals its
multiplicity in the input), and a record matching neither is excluded (its
multiplicity is 0). -/
theorem claim_C1_filter_or_semantics (df : List Row) (now : Timestamp) (r : Row) :
    (r ∈ df_priority df now ↔ r ∈ df ∧ (KwHit r.registro ∨ StaleHit now r.data))
    ∧ (df_priority df now).count r
        = (if priorityPred now r = true then df.count r else 0) := by
  constructor
  · rw [df_priority_eq_filter, List.mem_filter]
    simp [priorityPred, Bool.or_eq_true, kwTest_iff, dateTest_iff]
  · rw [df_priority_eq_filter]
    by_cases h : priorityPred now r = true
    · rw [if_pos h, List.count_filter h]
    · rw [if_neg h, List.count_eq_zero]
      intro hmem
      exact h (List.mem_filter.mp hmem).2

/-- C3: with `now` = 2025-01-06 (a Monday, weekday 0), `now` minus two
business days is 2025-01-02 (a Thursday, weekday 3); a record dated
2025-01-01 passes the staleness test and one dated 2025-01-03 does not, and,
both having keyword-free notes, the filter keeps exactly the former. -/
theorem claim_C3_business_day_example :
    weekday (mkDate 2025 1 6).day = 0
    ∧ two_bd_ago (mkDate 2025 1 6) = mkDate 2025 1 2
    ∧ weekday (mkDate 2025 1 2).day = 3
    ∧ dateTest (mkDate 2025 1 6) rJan1.data = true
    ∧ dateTest (mkDate 2025 1 6) rJan3.data = false
    ∧ kwTest rJan1.registro = false
    ∧ kwTest rJan3.registro = false
    ∧ df_priority [rJan1, rJan3] (mkDate 2025 1 6) = [rJan1] := by
  decide

/-- C4: the claimed normalization does not happen — `astype(str)` runs before
`fillna`, turning a missing cell into the literal string "nan", so a missing
`Atendente` loads as "nan" (not the sentinel "Não Informado") and missing
notes load as "nan" (not the empty string); the loader output on such a row
shows it. -/
theorem claim_C4_sentinel_normalization_bug :
    normAtendente none = some "nan"
    ∧ normRegistro none = some "nan"
    ∧ some "nan" ≠ some "Não Informado"
    ∧ (some "nan" : Option String) ≠ some ""
    ∧ load ⟨required_cols, [⟨some (mkDate 2025 1 3), "Dani Luz", none, none⟩]⟩
        = Except.ok [⟨some (mkDate 2025 1 3), "Dani Luz", some "nan", some "nan"⟩] := by
  decide

/-- C5: the claimed MissingColumns failure only happens for the lead-name
column: the rows normalisation (lines 78–81) touches the other three columns
before the check at lines 86–90 runs, so their absence surfaces as the
generic parse error of line 83, not as a missing-columns error. -/
theorem claim_C5_missing_column_error_path :
    load ⟨["Nome do Atendido", "Atendente", "Registro"], []⟩
      = Except.error (LoadError.parseError "KeyError: Data do Atendimento")
    ∧ load ⟨["Data do Atendimento", "Nome do Atendido", "Atendente"], []⟩
      = Except.error (LoadError.parseError "KeyError: Registro")
    ∧ load ⟨["Data do Atendimento", "Nome do Atendido", "Registro"], []⟩
      = Except.error (LoadError.parseError "KeyError: Atendente")
    ∧ load ⟨["Data do Atendimento", "Atendente", "Registro"], []⟩
      = Except.error (LoadError.missingColumns ["Nome do Atendido"]) := by
  decide

/-- C6 counterexample: "now" is not supplied as a parameter — line 95 reads
`pd.Timestamp.now()` inside the filtering code (lines 93–97 take no
evaluation-instant input).  Observably: with the record sequence fixed, the
selection changes with the system-clock reading — the keyword-free row dated
Friday 2025-01-03 is excluded when the clock reads Monday 2025-01-06 but
selected when it reads Friday 2025-01-10, so the output is not a function of
the records plus a caller-supplied instant. -/
theorem claim_C6_clock_read_counterexample :
    df_priority [rJan3] (mkDate 2025 1 6) = []
    ∧ df_priority [rJan3] (mkDate 2025 1 10) = [rJan3]
    ∧ df_priority [rJan3] (mkDate 2025 1 6)
        ≠ df_priority [rJan3] (mkDate 2025 1 10) := by
  decide

/-- C6 (amended): the Priority Filter logic is deterministic in the record
sequence and the clock reading taken at line 95 — two runs on the same
records and the same clock reading yield the same output, and the output is
the pointwise filter of the records by a predicate of that reading alone
(though the reading comes from the system clock inside the filter, not from
a parameter). -/
theorem claim_C6_filter_determinism (df₁ df₂ : List Row) (now₁ now₂ : Timestamp)
    (h1 : df₁ = df₂) (h2 : now₁ = now₂) :
    df_priority df₁ now₁ = df_priority df₂ now₂
    ∧ df_priority df₁ now₁ = df₁.filter (priorityPred now₁) := by
  subst h1
  subst h2
  exact ⟨rfl, df_priority_eq_filter now₁ df₁⟩

/-- C6 witness: the determinism theorem applied at a concrete table and
instant. -/
theorem claim_C6_filter_determinism_witness :
    df_priority [rJan1, rJan3] (mkDate 2025 1 6)
      = df_priority [rJan1, rJan3] (mkDate 2025 1 6)
    ∧ df_priority [rJan1, rJan3] (mkDate 2025 1 6)
      = List.filter (priorityPred (mkDate 2025 1 6)) [rJan1, rJan3] :=
  claim_C6_filter_determinism [rJan1, rJan3] [rJan1, rJan3]
    (mkDate 2025 1 6) (mkDate 2025 1 6) rfl rfl

/-- C7: the filter output is a stable subsequence of the input: it is a
sublist, it equals the input rows at the selected positions in position
order, and those positions are strictly increasing. -/
theorem claim_C7_order_preserved (df : List Row) (now : Timestamp) :
    List.Sublist (df_priority df now) df
    ∧ df_priority df now
        = (df.enum.filter (fun q => priorityPred now q.2)).map Prod.snd
    ∧ ((df.enum.filter (fun q => priorityPred now q.2)).map Prod.fst).Pairwise (· < ·) := by
  refine ⟨?_, ?_, ?_⟩
  · rw [df_priority_eq_filter]
    exact List.filter_sublist df
  · rw [df_priority_eq_filter]
    have h : (df.enum.map Prod.snd).filter (priorityPred now)
        = (df.enum.filter ((priorityPred now) ∘ Prod.snd)).map Prod.snd :=
      List.filter_map Prod.snd df.enum
    rw [List.enum_map_snd] at h
    rw [h]
    rfl
  · have hp : df.enum.Pairwise (fun a b => a.1 < b.1) := by
      have hr := List.pairwise_lt_range df.length
      rw [← List.enum_map_fst df] at hr
      exact (List.pairwise_map).mp hr
    have hf : List.Sublist (df.enum.filter (fun q => priorityPred now q.2)) df.enum :=
      List.filter_sublist _
    exact (List.pairwise_map).mpr (hp.sublist hf)

/-- C8: whenever the loader succeeds, the retained rows are exactly the raw
rows whose timestamp coerced, normalised, in order; every retained row has a
present (valid) timestamp that comes from its raw row, so no row is retained
with a null timestamp and unparseable-timestamp rows are silently dropped. -/
theorem claim_C8_retained_rows_have_timestamps (s : Sheet) (rows : List Row)
    (h : load s = Except.ok rows) :
    rows = (s.rows.filter (fun r => r.data.isSome)).map (fun r =>
      { r with registro := normRegistro r.registro,
               atendente := normAtendente r.atendente })
    ∧ ∀ rec ∈ rows, rec.data.isSome = true ∧ ∃ raw ∈ s.rows, rec.data = raw.data := by
  simp only [load] at h
  split_ifs at h with h1 h2 h3 h4
  · obtain rfl : _ = rows := (Except.ok.injEq _ _).mp h
    constructor
    · rfl
    · intro rec hrec
      obtain ⟨r, hr, rfl⟩ := List.mem_map.mp hrec
      have hr2 := List.mem_filter.mp hr
      exact ⟨hr2.2, r, hr2.1, rfl⟩

/-- C8 witness: the loader theorem applied to a concrete sheet with one good
row and one unparseable-date row. -/
theorem claim_C8_retained_rows_have_timestamps_witness :
    load wSheet = Except.ok wLoaded
    ∧ (wLoaded = (wSheet.rows.filter (fun r => r.data.isSome)).map (fun r =>
        { r with registro := normRegistro r.registro,
                 atendente := normAtendente r.atendente })
      ∧ ∀ rec ∈ wLoaded, rec.data.isSome = true
          ∧ ∃ raw ∈ wSheet.rows, rec.data = raw.data) :=
  ⟨by decide, claim_C8_retained_rows_have_timestamps wSheet wLoaded (by decide)⟩

/-- C9: credential resolution prefers the secrets store (the environment is
never consulted when the secrets lookup yields a key), falls back to the
`OPENAI_API_KEY` environment variable exactly when the secrets lookup fails,
and halts before the pipeline runs when both sources are absent. -/
theorem claim_C9_credential_layering (k : String) (env : Option String) :
    resolveCredential (some k) env = StartupOutcome.ran k
    ∧ resolveCredential none (some k) = StartupOutcome.ran k
    ∧ resolveCredential none none = StartupOutcome.halted :=
  ⟨rfl, rfl, rfl⟩

/-- C2 counterexample: a batch consisting of one priority lead whose
`Atendente` cell is the whitespace-only string " " (retained by the loader,
notes contain the keyword "urgente"), with a collaborator that fails for that
lead (and vacuously succeeds for all others): the assembler does not produce
a one-section sequence as the claim states — it aborts with the uncaught
`IndexError` from line 166. -/
theorem claim_C2_assembler_counterexample :
    gerar_relatorio genFail0 [wRowBlankAtendente]
      = Except.error PyError.indexError := by
  decide

/-- C2 (amended): provided every lead's agent field extracts a first-name
token (it is either missing or has a non-whitespace character), if the
collaborator fails exactly for lead `k` and succeeds for the others, the
assembler returns one section per lead in input order, lead `k`'s section
being the fixed fallback template and every other section the collaborator's
text verbatim. -/
theorem claim_C2_amended_fault_isolation (gen : Generator) (leads : List Row)
    (k : Nat) (txt : Nat → String)
    (hok : ∀ r ∈ leads, (extractAtendente r.atendente).isOk = true)
    (hsucc : ∀ q ∈ leads.enum, q.1 ≠ k → gen q.1 q.2 = some (txt q.1))
    (hfail : ∀ q ∈ leads.enum, q.1 = k → gen q.1 q.2 = none) :
    ∃ sections, gerar_relatorio gen leads = Except.ok sections
      ∧ sections.length = leads.length
      ∧ sections = leads.enum.map (fun q =>
          if q.1 = k then fallbackSection q.2 (atendenteOrNA q.2.atendente)
          else txt q.1) := by
  have hrun : gerar_relatorio gen leads = Except.ok (leads.enum.map (fun q =>
      match gen q.1 q.2 with
      | some text => text
      | none => fallbackSection q.2 (atendenteOrNA q.2.atendente))) :=
    gerarAux_ok gen leads 0 hok
  have hmap : leads.enum.map (fun q =>
      match gen q.1 q.2 with
      | some text => text
      | none => fallbackSection q.2 (atendenteOrNA q.2.atendente))
      = leads.enum.map (fun q =>
          if q.1 = k then fallbackSection q.2 (atendenteOrNA q.2.atendente)
          else txt q.1) := by
    apply List.map_congr_left
    intro q hq
    by_cases hk : q.1 = k
    · rw [hfail q hq hk, if_pos hk]
    · rw [hsucc q hq hk, if_neg hk]
  refine ⟨_, hrun, ?_, hmap⟩
  simp

/-- C2 witness: the amended theorem applied to a concrete two-lead batch
whose collaborator fails exactly on the first call. -/
theorem claim_C2_amended_fault_isolation_witness :
    ∃ sections, gerar_relatorio genFailAt0 [wRowGood, wRowGood2] = Except.ok sections
      ∧ sections.length = [wRowGood, wRowGood2].length
      ∧ sections = [wRowGood, wRowGood2].enum.map (fun q =>
          if q.1 = 0 then fallbackSection q.2 (atendenteOrNA q.2.atendente)
          else (fun _ => "SECTION") q.1) :=
  claim_C2_amended_fault_isolation genFailAt0 [wRowGood, wRowGood2] 0
    (fun _ => "SECTION") (by decide) (by decide) (by decide)

/-- C10: a priority lead whose agent-name field is an empty or whitespace-only
string makes the batch abort with the uncaught `IndexError` raised at
line 166 (before the per-lead handler), whatever the collaborator does and
however many well-formed leads precede it; and the "N/A" substitution happens
only for a missing value, never for such a string. -/
theorem claim_C10_blank_agent_aborts_batch (gen : Generator) (pre post : List Row)
    (bad : Row) (s : String) (h1 : bad.atendente = some s) (h2 : pySplit s = [])
    (h3 : ∀ r ∈ pre, (extractAtendente r.atendente).isOk = true) :
    gerar_relatorio gen (pre ++ bad :: post) = Except.error PyError.indexError
    ∧ extractAtendente (some s) = Except.error PyError.indexError
    ∧ extractAtendente none = Except.ok "N/A" := by
  refine ⟨gerarAux_error_append gen bad s h1 h2 pre 0 post h3, ?_, rfl⟩
  simp [extractAtendente, h2]

/-- C10 witness: the abort theorem applied to a concrete batch — one
well-formed lead followed by a whitespace-agent lead — under a collaborator
that succeeds on every call. -/
theorem claim_C10_blank_agent_aborts_batch_witness :
    gerar_relatorio genOkConst ([wRowGood] ++ wRowBlankAtendente :: [])
      = Except.error PyError.indexError
    ∧ extractAtendente (some " ") = Except.error PyError.indexError
    ∧ extractAtendente none = Except.ok "N/A" :=
  claim_C10_blank_agent_aborts_batch genOkConst [wRowGood] [] wRowBlankAtendente
    " " rfl (by decide) (by decide)

end Mpn
